import Mathlib

/-!
Verification of the shader-management utility of the Transform repository
(src/shader.h, src/main.cpp).

src/shader.h declares the `Shader` class: a public `unsigned int ID`, a
constructor taking vertex- and fragment-source file paths, `use()`, the
const uniform setters `setBool` / `setInt` / `setFloat`,
`checkCompileErrors`, and `getProgram()`.  The member-function bodies are
not part of the repository sources; only the declarations (src/shader.h)
and the caller (src/main.cpp) are.  Following the specification, the
missing bodies are modelled below; each such definition carries a
`Modelled from the spec:` doc comment naming what is missing.

The graphics driver is modelled as an explicit state record (`GLState`)
threaded through every operation, plus oracles (`Driver`) for the
driver-dependent outcomes of compiling and linking source text.
-/

/-- A shader stage, vertex or fragment processing. -/
inductive Stage : Type
  | Vertex : Stage
  | Fragment : Stage
deriving DecidableEq, Repr

/-- The tag used for a stage inside diagnostic messages. -/
def Stage.tag : Stage → String
  | Stage.Vertex => "VERTEX"
  | Stage.Fragment => "FRAGMENT"

/-- A value stored in a uniform slot: the integer family (`glUniform1i`,
also used for bools) or the float family (`glUniform1f`, floats modelled
as rationals since no claim depends on rounding). -/
inductive GLValue : Type
  | int : Int → GLValue
  | float : Rat → GLValue
deriving DecidableEq, Repr

/-- The driver state visible to the shader utility: a fresh-handle
counter, the live transient per-stage shader objects, the successfully
linked (usable) programs, the reflection table mapping (program, uniform
name) to a location, the uniform stores mapping (program, location) to a
value, the active program (0 = none), the diagnostics channel, and an
instrumentation counter of location queries performed. -/
structure GLState : Type where
  nextHandle : Nat
  liveShaders : List Nat
  linkedPrograms : List Nat
  uniformLocs : List ((Nat × String) × Int)
  uniformVals : List ((Nat × Int) × GLValue)
  activeProgram : Nat
  errorLog : List String
  lookupCount : Nat
deriving DecidableEq, Repr

/-- The Shader class of src/shader.h: it holds the program ID
(`unsigned int ID`, src/shader.h line 30). -/
structure Shader : Type where
  ID : Nat
deriving DecidableEq, Repr

/-- The error taxonomy of the construction contract:
SourceReadError(path), CompileError(stage, log), LinkError(log). -/
inductive ShaderError : Type
  | SourceReadError : String → ShaderError
  | CompileError : Stage → String → ShaderError
  | LinkError : String → ShaderError
deriving DecidableEq, Repr

/-- The file system: an association of paths to text contents; a path
not in the list cannot be opened. -/
def FileSystem : Type := List (String × String)

/-- Reading a file fully as text; `none` when it cannot be opened. -/
def readFile (fs : FileSystem) (path : String) : Option String :=
  Option.map (fun e => e.2) (List.find? (fun e => e.1 == path) fs)

/-- Driver-dependent oracles: `compile stage src` is `some log` exactly
when the driver rejects the source with diagnostic `log`; `link vsrc
fsrc` likewise for linking; `uniforms vsrc fsrc` is the reflection data
(uniform name, location) the driver assigns to a successfully linked
program built from the two sources. -/
structure Driver : Type where
  compile : Stage → String → Option String
  link : String → String → Option String
  uniforms : String → String → List (String × Int)

/-- Resolve a uniform name to a location in a reflection table; -1 when
the name is absent (the driver's "not found"). -/
def lookupLoc (locs : List ((Nat × String) × Int)) (program : Nat)
    (name : String) : Int :=
  match List.find? (fun e => e.1 == (program, name)) locs with
  | some e => e.2
  | none => -1

/-- The driver query resolving a name to a location; every call counts
as one lookup. -/
def glGetUniformLocation (st : GLState) (program : Nat) (name : String) :
    Int × GLState :=
  (lookupLoc st.uniformLocs program name,
   { st with lookupCount := st.lookupCount + 1 })

/-- An integer uniform write to the active program; a write at the
"not found" location -1 is silently ignored by the driver. -/
def glUniform1i (loc : Int) (v : Int) (st : GLState) : GLState :=
  if loc = -1 then st
  else { st with
         uniformVals := ((st.activeProgram, loc), GLValue.int v) :: st.uniformVals }

/-- A float uniform write to the active program; a write at the
"not found" location -1 is silently ignored by the driver. -/
def glUniform1f (loc : Int) (v : Rat) (st : GLState) : GLState :=
  if loc = -1 then st
  else { st with
         uniformVals := ((st.activeProgram, loc), GLValue.float v) :: st.uniformVals }

/-- Modelled from the spec: the body of `Shader::use` (declared at
src/shader.h line 35) is missing from src/; per the spec, `activate()`
"makes this program the active one for subsequent draw calls", a driver
state mutation with no return value. -/
def Shader.use (s : Shader) (st : GLState) : GLState :=
  { st with activeProgram := s.ID }

/-- Modelled from the spec: the body of `Shader::getProgram` (declared
at src/shader.h line 41) is missing from src/; per the spec,
`programHandle()` "returns the opaque identifier", the program ID held
by the object, which src/main.cpp lines 317-318 uses interchangeably
with the public `ID` field. -/
def Shader.getProgram (s : Shader) : Nat :=
  s.ID

/-- Modelled from the spec: the body of `Shader::setBool` (declared
const at src/shader.h line 37) is missing from src/; per the spec the
name is resolved to a location via a driver query on every write and the
bool is written in its 0/1 integer encoding; the const qualifier means
the Shader object itself is returned unchanged. -/
def Shader.setBool (s : Shader) (name : String) (value : Bool)
    (st : GLState) : Shader × GLState :=
  let q := glGetUniformLocation st s.ID name
  (s, glUniform1i q.1 (if value then 1 else 0) q.2)

/-- Modelled from the spec: the body of `Shader::setInt` (declared const
at src/shader.h line 38) is missing from src/; per the spec the name is
resolved via a driver query on every write and the integer is written;
const, so the Shader object is returned unchanged. -/
def Shader.setInt (s : Shader) (name : String) (value : Int)
    (st : GLState) : Shader × GLState :=
  let q := glGetUniformLocation st s.ID name
  (s, glUniform1i q.1 value q.2)

/-- Modelled from the spec: the body of `Shader::setFloat` (declared
const at src/shader.h line 39) is missing from src/; per the spec the
name is resolved via a driver query on every write and the float is
written; const, so the Shader object is returned unchanged. -/
def Shader.setFloat (s : Shader) (name : String) (value : Rat)
    (st : GLState) : Shader × GLState :=
  let q := glGetUniformLocation st s.ID name
  (s, glUniform1f q.1 value q.2)

/-- The driver's own query reading back an integer-family uniform of a
program by name: resolve the name, then read the stored value. -/
def getUniformInt (st : GLState) (program : Nat) (name : String) :
    Option Int :=
  let loc := lookupLoc st.uniformLocs program name
  if loc = -1 then none
  else
    match List.find? (fun e => e.1 == (program, loc)) st.uniformVals with
    | some ⟨_, GLValue.int v⟩ => some v
    | some ⟨_, GLValue.float _⟩ => none
    | none => none

/-- The diagnostic emitted by checkCompileErrors on a compile failure:
"ERROR::SHADER::<STAGE>::COMPILATION_FAILED" then a newline and the
driver-reported log. -/
def compileErrorMsg (stage : Stage) (log : String) : String :=
  "ERROR::SHADER::" ++ stage.tag ++ "::COMPILATION_FAILED" ++ "\n" ++ log

/-- The link equivalent of the compile diagnostic. -/
def linkErrorMsg (log : String) : String :=
  "ERROR::SHADER::PROGRAM::LINKING_FAILED" ++ "\n" ++ log

/-- Modelled from the spec: the body of the constructor `Shader::Shader`
(declared at src/shader.h line 33) is missing from src/.  Per the
construction contract: read each file fully as text, failing with
`SourceReadError` naming the path of a file that cannot be opened;
compile each stage independently, failing with `CompileError{stage,log}`
and emitting the formatted diagnostic on failure; link the two stages,
failing with `LinkError{log}` likewise; release the transient per-stage
shader objects immediately after a successful or failed link; on
success the object holds the linked program handle.  All failures are
terminal for the construction attempt. -/
def construct (drv : Driver) (fs : FileSystem)
    (vertexPath fragmentPath : String) (st : GLState) :
    Except ShaderError Shader × GLState :=
  match readFile fs vertexPath with
  | none => (Except.error (ShaderError.SourceReadError vertexPath), st)
  | some vertexCode =>
    match readFile fs fragmentPath with
    | none => (Except.error (ShaderError.SourceReadError fragmentPath), st)
    | some fragmentCode =>
      let vertexHandle := st.nextHandle
      let st1 : GLState :=
        { st with nextHandle := st.nextHandle + 1,
                  liveShaders := vertexHandle :: st.liveShaders }
      match drv.compile Stage.Vertex vertexCode with
      | some log =>
        (Except.error (ShaderError.CompileError Stage.Vertex log),
         { st1 with errorLog := st1.errorLog ++ [compileErrorMsg Stage.Vertex log] })
      | none =>
        let fragmentHandle := st1.nextHandle
        let st2 : GLState :=
          { st1 with nextHandle := st1.nextHandle + 1,
                     liveShaders := fragmentHandle :: st1.liveShaders }
        match drv.compile Stage.Fragment fragmentCode with
        | some log =>
          (Except.error (ShaderError.CompileError Stage.Fragment log),
           { st2 with errorLog := st2.errorLog ++ [compileErrorMsg Stage.Fragment log] })
        | none =>
          let programHandle := st2.nextHandle
          let st3 : GLState := { st2 with nextHandle := st2.nextHandle + 1 }
          match drv.link vertexCode fragmentCode with
          | some log =>
            (Except.error (ShaderError.LinkError log),
             { st3 with
               liveShaders := (st3.liveShaders.erase vertexHandle).erase fragmentHandle,
               errorLog := st3.errorLog ++ [linkErrorMsg log] })
          | none =>
            (Except.ok { ID := programHandle },
             { st3 with
               liveShaders := (st3.liveShaders.erase vertexHandle).erase fragmentHandle,
               linkedPrograms := programHandle :: st3.linkedPrograms,
               uniformLocs := st3.uniformLocs ++
                 List.map (fun e => ((programHandle, e.1), e.2))
                   (drv.uniforms vertexCode fragmentCode) })

/-- One uniform write request, as issued by the render loop. -/
inductive UniformWrite : Type
  | wBool : String → Bool → UniformWrite
  | wInt : String → Int → UniformWrite
  | wFloat : String → Rat → UniformWrite
deriving DecidableEq, Repr

/-- Apply one uniform write through the matching typed setter. -/
def applyWrite (s : Shader) (w : UniformWrite) (st : GLState) : GLState :=
  match w with
  | UniformWrite.wBool name v => (s.setBool name v st).2
  | UniformWrite.wInt name v => (s.setInt name v st).2
  | UniformWrite.wFloat name v => (s.setFloat name v st).2

/-- Run a sequence of uniform writes in order. -/
def runWrites (s : Shader) (ws : List UniformWrite) (st : GLState) : GLState :=
  List.foldl (fun acc w => applyWrite s w acc) st ws

/-- Calling use n times in a row. -/
def useN (s : Shader) : Nat → GLState → GLState
  | 0, st => st
  | n + 1, st => s.use (useN s n st)

/-- A concrete fresh driver state used by the witnesses. -/
def demoState : GLState :=
  { nextHandle := 1, liveShaders := [], linkedPrograms := [],
    uniformLocs := [], uniformVals := [], activeProgram := 0,
    errorLog := [], lookupCount := 0 }

/-- A concrete driver that accepts every source, used by witnesses. -/
def demoDriver : Driver :=
  { compile := fun _ _ => none, link := fun _ _ => none,
    uniforms := fun _ _ => [] }

/-- A concrete driver that rejects vertex sources with log "bad", used
by witnesses. -/
def failVertexDriver : Driver :=
  { compile := fun stage _ =>
      match stage with
      | Stage.Vertex => some "bad"
      | Stage.Fragment => none,
    link := fun _ _ => none,
    uniforms := fun _ _ => [] }

/-- A concrete file system holding the two demo source files, used by
witnesses. -/
def demoFS : FileSystem :=
  [("v.txt", "vcode"), ("f.txt", "fcode")]

lemma glUniform1i_lookupCount (loc : Int) (v : Int) (st : GLState) :
    (glUniform1i loc v st).lookupCount = st.lookupCount := by
  unfold glUniform1i; split <;> rfl

lemma glUniform1f_lookupCount (loc : Int) (v : Rat) (st : GLState) :
    (glUniform1f loc v st).lookupCount = st.lookupCount := by
  unfold glUniform1f; split <;> rfl

lemma applyWrite_lookupCount (s : Shader) (w : UniformWrite) (st : GLState) :
    (applyWrite s w st).lookupCount = st.lookupCount + 1 := by
  cases w <;>
    simp [applyWrite, Shader.setBool, Shader.setInt, Shader.setFloat,
      glGetUniformLocation, glUniform1i_lookupCount, glUniform1f_lookupCount]

lemma runWrites_lookupCount (s : Shader) (ws : List UniformWrite)
    (st : GLState) :
    (runWrites s ws st).lookupCount = st.lookupCount + ws.length := by
  induction ws generalizing st with
  | nil => rfl
  | cons w ws ih =>
    show (runWrites s ws (applyWrite s w st)).lookupCount = _
    rw [ih, applyWrite_lookupCount, List.length_cons]
    omega

/-- C9: getProgram() returns exactly the value of the public ID field,
so the two ways src/main.cpp lines 317-318 read the program handle
always agree. -/
theorem getProgram_eq_ID (s : Shader) : s.getProgram = s.ID := rfl

/-- C10: the typed uniform setters setBool, setInt and setFloat are
const operations: the Shader object they return is identical to the one
they were called on, for every name and value. -/
theorem setters_leave_shader_unchanged (s : Shader) (name : String)
    (b : Bool) (i : Int) (f : Rat) (st : GLState) :
    (s.setBool name b st).1 = s ∧ (s.setInt name i st).1 = s ∧
      (s.setFloat name f st).1 = s :=
  ⟨rfl, rfl, rfl⟩

/-- C4: use() is idempotent: any positive number of consecutive calls
with no intervening state change leaves the driver state equal to the
state after the first call. -/
theorem use_idempotent (s : Shader) (st : GLState) (n : Nat) (h : 0 < n) :
    useN s n st = s.use st := by
  induction n with
  | zero => exact absurd h (lt_irrefl 0)
  | succ n ih =>
    rcases Nat.eq_zero_or_pos n with h0 | hp
    · subst h0; rfl
    · show s.use (useN s n st) = s.use st
      rw [ih hp]
      rfl

theorem use_idempotent_witness :
    0 < 3 ∧ useN { ID := 7 } 3 demoState = Shader.use { ID := 7 } demoState :=
  ⟨by decide, use_idempotent { ID := 7 } demoState 3 (by decide)⟩

/-- C6: every uniform write performs its own location lookup at the time
of that write: each single setter call increments the driver's lookup
counter by exactly one, and a sequence of writes (repeated names
included) performs exactly one lookup per write — no name-to-location
result is cached between calls. -/
theorem every_write_does_own_lookup (s : Shader) (name : String)
    (b : Bool) (i : Int) (f : Rat) (ws : List UniformWrite)
    (st : GLState) :
    (s.setBool name b st).2.lookupCount = st.lookupCount + 1 ∧
    (s.setInt name i st).2.lookupCount = st.lookupCount + 1 ∧
    (s.setFloat name f st).2.lookupCount = st.lookupCount + 1 ∧
    (runWrites s ws st).lookupCount = st.lookupCount + ws.length :=
  ⟨applyWrite_lookupCount s (UniformWrite.wBool name b) st,
   applyWrite_lookupCount s (UniformWrite.wInt name i) st,
   applyWrite_lookupCount s (UniformWrite.wFloat name f) st,
   runWrites_lookupCount s ws st⟩

/-- C3: setting a uniform whose name is absent from a successfully
linked program is a no-op for each typed setter: the write is silently
ignored, no diagnostic is emitted and every uniform of every program is
left unchanged. -/
theorem setUniform_absent_is_noop (s : Shader) (name : String)
    (st : GLState) (_hlink : s.ID ∈ st.linkedPrograms)
    (habsent : ∀ e ∈ st.uniformLocs, e.1 ≠ (s.ID, name)) :
    ∀ (b : Bool) (i : Int) (f : Rat),
      (s.setBool name b st).2.uniformVals = st.uniformVals ∧
      (s.setBool name b st).2.errorLog = st.errorLog ∧
      (s.setInt name i st).2.uniformVals = st.uniformVals ∧
      (s.setInt name i st).2.errorLog = st.errorLog ∧
      (s.setFloat name f st).2.uniformVals = st.uniformVals ∧
      (s.setFloat name f st).2.errorLog = st.errorLog := by
  intro b i f
  have hfind : List.find? (fun e => e.1 == (s.ID, name)) st.uniformLocs = none := by
    rw [List.find?_eq_none]
    intro e he
    simpa using habsent e he
  have hloc : lookupLoc st.uniformLocs s.ID name = -1 := by
    unfold lookupLoc; rw [hfind]
  simp [Shader.setBool, Shader.setInt, Shader.setFloat,
    glGetUniformLocation, glUniform1i, glUniform1f, hloc]

theorem setUniform_absent_is_noop_witness :
    let s : Shader := { ID := 5 }
    let st : GLState := { demoState with linkedPrograms := [5] }
    s.ID ∈ st.linkedPrograms ∧
    ((s.setBool "missing" true st).2.uniformVals = st.uniformVals ∧
     (s.setBool "missing" true st).2.errorLog = st.errorLog ∧
     (s.setInt "missing" 3 st).2.uniformVals = st.uniformVals ∧
     (s.setInt "missing" 3 st).2.errorLog = st.errorLog ∧
     (s.setFloat "missing" 2 st).2.uniformVals = st.uniformVals ∧
     (s.setFloat "missing" 2 st).2.errorLog = st.errorLog) :=
  ⟨by simp [demoState],
   setUniform_absent_is_noop { ID := 5 } "missing"
     { demoState with linkedPrograms := [5] } (by simp [demoState])
     (by simp [demoState]) true 3 2⟩

lemma setBool_state (s : Shader) (name : String) (value : Bool)
    (st : GLState) (loc : Int)
    (hloc : lookupLoc st.uniformLocs s.ID name = loc) (hne : loc ≠ -1)
    (hact : st.activeProgram = s.ID) :
    (s.setBool name value st).2 =
      { st with lookupCount := st.lookupCount + 1,
                uniformVals :=
                  ((s.ID, loc), GLValue.int (if value then 1 else 0)) ::
                    st.uniformVals } := by
  simp [Shader.setBool, glGetUniformLocation, glUniform1i, hloc, hne, hact]

/-- C5: setBool encodes a boolean as its integer representation: on a
linked program whose reflection data contains the name at a real
location, activating the program and writing true then reading the
uniform back through the driver query yields the integer 1, and writing
false yields 0. -/
theorem setBool_bool_to_int_encoding (s : Shader) (name : String)
    (st : GLState) (loc : Int) (_hlink : s.ID ∈ st.linkedPrograms)
    (hloc : lookupLoc st.uniformLocs s.ID name = loc) (hne : loc ≠ -1) :
    getUniformInt (s.setBool name true (s.use st)).2 s.ID name = some 1 ∧
    getUniformInt (s.setBool name false (s.use st)).2 s.ID name = some 0 := by
  have h1 := setBool_state s name true (s.use st) loc hloc hne rfl
  have h0 := setBool_state s name false (s.use st) loc hloc hne rfl
  rw [h1, h0]
  constructor <;> simp [getUniformInt, Shader.use, hloc, hne]

/-- A concrete state holding one linked program (handle 5) whose
reflection data has the uniform "x" at location 0, used by witnesses. -/
def demoLinkedState : GLState :=
  { demoState with linkedPrograms := [5], uniformLocs := [((5, "x"), 0)] }

theorem setBool_bool_to_int_encoding_witness :
    (5 : Nat) ∈ demoLinkedState.linkedPrograms ∧
    lookupLoc demoLinkedState.uniformLocs 5 "x" = 0 ∧
    (0 : Int) ≠ -1 ∧
    (getUniformInt
        (Shader.setBool { ID := 5 } "x" true
          (Shader.use { ID := 5 } demoLinkedState)).2 5 "x" = some 1 ∧
     getUniformInt
        (Shader.setBool { ID := 5 } "x" false
          (Shader.use { ID := 5 } demoLinkedState)).2 5 "x" = some 0) :=
  ⟨by simp [demoLinkedState, demoState], by decide, by decide,
   setBool_bool_to_int_encoding { ID := 5 } "x" demoLinkedState 0
     (by simp [demoLinkedState, demoState]) (by decide) (by decide)⟩

/-- C1: construction is all-or-nothing: for every driver, file system,
pair of paths and starting state, the constructor either returns a
usable Shader whose ID is a successfully linked program of the resulting
driver state, or returns an error and leaves the set of linked (usable)
programs exactly as it was — there is no partially-initialized usable
state. -/
theorem construct_linked_or_failed (drv : Driver) (fs : FileSystem)
    (vertexPath fragmentPath : String) (st : GLState) :
    (∃ sh, (construct drv fs vertexPath fragmentPath st).1 = Except.ok sh ∧
       sh.ID ∈ (construct drv fs vertexPath fragmentPath st).2.linkedPrograms) ∨
    (∃ e, (construct drv fs vertexPath fragmentPath st).1 = Except.error e ∧
       (construct drv fs vertexPath fragmentPath st).2.linkedPrograms =
         st.linkedPrograms) := by
  unfold construct
  split
  · exact Or.inr ⟨_, rfl, rfl⟩
  · split
    · exact Or.inr ⟨_, rfl, rfl⟩
    · split
      · exact Or.inr ⟨_, rfl, rfl⟩
      · split
        · exact Or.inr ⟨_, rfl, rfl⟩
        · split
          · exact Or.inr ⟨_, rfl, rfl⟩
          · exact Or.inl ⟨_, rfl, by simp⟩

/-- C2: a nonexistent vertex- or fragment-source path makes construction
fail with SourceReadError naming a nonexistent input path, leaving the
driver state (so in particular its usable programs) untouched: no Ready
program is produced. -/
theorem construct_missing_path_fails (drv : Driver) (fs : FileSystem)
    (vertexPath fragmentPath : String) (st : GLState)
    (h : readFile fs vertexPath = none ∨ readFile fs fragmentPath = none) :
    ∃ p, (p = vertexPath ∨ p = fragmentPath) ∧ readFile fs p = none ∧
      construct drv fs vertexPath fragmentPath st =
        (Except.error (ShaderError.SourceReadError p), st) := by
  rcases hv : readFile fs vertexPath with _ | vcode
  · exact ⟨vertexPath, Or.inl rfl, hv, by simp [construct, hv]⟩
  · rcases h with h | hf
    · rw [hv] at h; exact absurd h (by simp)
    · exact ⟨fragmentPath, Or.inr rfl, hf, by simp [construct, hv, hf]⟩

theorem construct_missing_path_fails_witness :
    (readFile ([] : FileSystem) "v.txt" = none ∨
      readFile ([] : FileSystem) "f.txt" = none) ∧
    ∃ p, (p = "v.txt" ∨ p = "f.txt") ∧ readFile ([] : FileSystem) p = none ∧
      construct demoDriver ([] : FileSystem) "v.txt" "f.txt" demoState =
        (Except.error (ShaderError.SourceReadError p), demoState) :=
  ⟨Or.inl rfl,
   construct_missing_path_fails demoDriver ([] : FileSystem) "v.txt" "f.txt"
     demoState (Or.inl rfl)⟩

/-- C7: on a compile failure during construction the text emitted to the
error channel is exactly one message of the shape
"ERROR::SHADER::<STAGE>::COMPILATION_FAILED" followed by a newline and
the driver-reported log (and the link-failure equivalent on a link
failure); nothing else is emitted during that construction. -/
theorem construct_compile_failure_diagnostic (drv : Driver)
    (fs : FileSystem) (vertexPath fragmentPath : String) (st : GLState)
    (vcode fcode log : String)
    (hv : readFile fs vertexPath = some vcode)
    (hf : readFile fs fragmentPath = some fcode) :
    (drv.compile Stage.Vertex vcode = some log →
      (construct drv fs vertexPath fragmentPath st).2.errorLog =
        st.errorLog ++ [compileErrorMsg Stage.Vertex log]) ∧
    (drv.compile Stage.Vertex vcode = none →
      drv.compile Stage.Fragment fcode = some log →
      (construct drv fs vertexPath fragmentPath st).2.errorLog =
        st.errorLog ++ [compileErrorMsg Stage.Fragment log]) ∧
    (drv.compile Stage.Vertex vcode = none →
      drv.compile Stage.Fragment fcode = none →
      drv.link vcode fcode = some log →
      (construct drv fs vertexPath fragmentPath st).2.errorLog =
        st.errorLog ++ [linkErrorMsg log]) := by
  refine ⟨fun hc => ?_, fun hcv hcf => ?_, fun hcv hcf hl => ?_⟩
  · simp [construct, hv, hf, hc]
  · simp [construct, hv, hf, hcv, hcf]
  · simp [construct, hv, hf, hcv, hcf, hl]

theorem construct_compile_failure_diagnostic_witness :
    readFile demoFS "v.txt" = some "vcode" ∧
    readFile demoFS "f.txt" = some "fcode" ∧
    ((failVertexDriver.compile Stage.Vertex "vcode" = some "bad" →
      (construct failVertexDriver demoFS "v.txt" "f.txt" demoState).2.errorLog =
        demoState.errorLog ++ [compileErrorMsg Stage.Vertex "bad"]) ∧
     (failVertexDriver.compile Stage.Vertex "vcode" = none →
      failVertexDriver.compile Stage.Fragment "fcode" = some "bad" →
      (construct failVertexDriver demoFS "v.txt" "f.txt" demoState).2.errorLog =
        demoState.errorLog ++ [compileErrorMsg Stage.Fragment "bad"]) ∧
     (failVertexDriver.compile Stage.Vertex "vcode" = none →
      failVertexDriver.compile Stage.Fragment "fcode" = none →
      failVertexDriver.link "vcode" "fcode" = some "bad" →
      (construct failVertexDriver demoFS "v.txt" "f.txt" demoState).2.errorLog =
        demoState.errorLog ++ [linkErrorMsg "bad"])) :=
  ⟨rfl, rfl,
   construct_compile_failure_diagnostic failVertexDriver demoFS
     "v.txt" "f.txt" demoState "vcode" "fcode" "bad" rfl rfl⟩

/-- C8: the transient per-stage shader objects created during
compilation are released before the constructor returns, on both the
success and the failure path of linking: whenever both stages compile,
the live per-stage shader objects after construction are exactly those
before it, whatever the link outcome. -/
theorem construct_releases_stage_shaders (drv : Driver) (fs : FileSystem)
    (vertexPath fragmentPath : String) (st : GLState)
    (vcode fcode : String)
    (hv : readFile fs vertexPath = some vcode)
    (hf : readFile fs fragmentPath = some fcode)
    (hcv : drv.compile Stage.Vertex vcode = none)
    (hcf : drv.compile Stage.Fragment fcode = none) :
    (construct drv fs vertexPath fragmentPath st).2.liveShaders =
      st.liveShaders := by
  have hne : ¬((st.nextHandle + 1 : Nat) == st.nextHandle) := by simp
  rcases hl : drv.link vcode fcode with _ | log <;>
    simp [construct, hv, hf, hcv, hcf, hl, List.erase_cons_tail hne]

theorem construct_releases_stage_shaders_witness :
    readFile demoFS "v.txt" = some "vcode" ∧
    readFile demoFS "f.txt" = some "fcode" ∧
    demoDriver.compile Stage.Vertex "vcode" = none ∧
    demoDriver.compile Stage.Fragment "fcode" = none ∧
    (construct demoDriver demoFS "v.txt" "f.txt" demoState).2.liveShaders =
      demoState.liveShaders :=
  ⟨rfl, rfl, rfl, rfl,
   construct_releases_stage_shaders demoDriver demoFS "v.txt" "f.txt"
     demoState "vcode" "fcode" rfl rfl rfl rfl⟩
